import Mathlib

/-!
# Verification of the country-vote client pipeline

Shallow embedding of the request/validation/refresh pipeline of the
country-vote frontend (React + TypeScript), covering:

* the form validator actually invoked on submit
  (`src/components/VotingForm.tsx`, `validateForm`),
* the submission controller (`handleSubmit`) as an explicit ordered trace
  of its primitive effects,
* the failure-message selection of the live submit path (the fetch-based
  `submitVote` of `src/api/service.ts`, the service the form imports),
* the ranking query controller (`src/components/CountryTable.tsx`):
  the 300 ms debounce effect, the refresh-trigger effect, and the
  asynchronous request/response state updates of
  `loadTopCountries` / `searchCountries`,
* the two coexisting API service implementations (fetch-based
  `src/api/service.ts` and the axios-based variant), restricted to their
  success paths.

JavaScript strings are modelled as Lean `String`; `String.prototype.trim`
is modelled over the character list with the ASCII whitespace characters
recognised by the JS `\s` class; the concrete inputs appearing in the
theorems below are all ASCII, where the two notions agree.
-/

/-! ## Data model (`src/types.ts`) -/

/-- `VoteSubmission` from `src/types.ts`: the raw form fields. -/
structure VoteSubmission where
  name : String
  email : String
  country : String
deriving DecidableEq, Repr

/-- `Country` from `src/types.ts`. -/
structure Country where
  name : String
  code : String
deriving DecidableEq, Repr

/-- `CountryVote` from `src/types.ts`: one ranking entry. The numeric
fields are only carried as opaque payload, never computed with, so `Nat`
suffices. -/
structure CountryVote where
  country : String
  capital : String
  region : String
  subRegion : String
  votes : Nat
  rank : Nat
deriving DecidableEq, Repr

/-- `ApiResponse<T>` from `src/types.ts`: `{ data: T, message?: string }`. -/
structure ApiResponse (α : Type) where
  data : α
  message : Option String := none
deriving DecidableEq, Repr

/-! ## JS string primitives used by the source -/

/-- Whitespace characters matched by the JS `\s` class, restricted to the
ASCII range (space, tab, LF, CR, vertical tab, form feed); the inputs in
this development are ASCII. -/
def isJsWs (c : Char) : Bool :=
  c == ' ' || c == '\t' || c == '\n' || c == '\r' ||
    c == '\u000b' || c == '\u000c'

/-- Drop the leading JS-whitespace of a character list. -/
def dropLeadingWs : List Char → List Char
  | [] => []
  | c :: cs => if isJsWs c then dropLeadingWs cs else c :: cs

/-- `String.prototype.trim()`: strip leading and trailing whitespace. -/
def jsTrim (s : String) : String :=
  ⟨dropLeadingWs (dropLeadingWs s.data.reverse).reverse⟩

/-- `String.prototype.toLowerCase()` restricted to ASCII data. -/
def jsToLowerAscii (s : String) : String :=
  ⟨s.data.map Char.toLower⟩

/-- A character admitted by the regex class `[^\s@]`. -/
def validEmailChar (c : Char) : Bool :=
  !(isJsWs c) && c != '@'

/-- Split a character list at the first character satisfying `p`,
returning the (possibly empty) parts before and after it. -/
def splitFirstAt (p : Char → Bool) : List Char → Option (List Char × List Char)
  | [] => none
  | c :: cs =>
    if p c then some ([], cs)
    else
      match splitFirstAt p cs with
      | none => none
      | some (l, r) => some (c :: l, r)

/-- The email test of `VotingForm.tsx` line 45:
`/^[^\s@]+@[^\s@]+\.[^\s@]+$/.test(email)`. A string matches iff it is
`A ++ "@" ++ D` where `A` is a nonempty run of `[^\s@]` characters, `D`
consists only of `[^\s@]` characters, and `D` contains a dot that is
neither its first nor its last character (the regex splits `D` as
`B ++ "." ++ C` with `B`, `C` nonempty runs of `[^\s@]`, and `[^\s@]`
itself admits dots). -/
def emailTest (s : String) : Bool :=
  match splitFirstAt (· == '@') s.data with
  | none => false
  | some (lp, dom) =>
    !lp.isEmpty && lp.all validEmailChar &&
      dom.all validEmailChar && ((dom.drop 1).dropLast).contains '.'

/-! ## Validator (`src/components/VotingForm.tsx` lines 36-55) -/

/-- The `Partial<VoteSubmission>` error record built by `validateForm`:
at most one message per field (first failing rule wins within a field). -/
structure FormErrors where
  name : Option String
  email : Option String
  country : Option String
deriving DecidableEq, Repr

/-- `validateForm`'s error record, translated clause by clause:
`name` fails `required` iff empty after trim (no length bounds are
checked); `email` fails `required` iff empty after trim, else
`invalidFormat` iff the regex rejects the raw (untrimmed) email;
`country` fails `required` iff it is the empty string. -/
def validateFormErrors (fd : VoteSubmission) : FormErrors where
  name := if jsTrim fd.name = "" then some "Name is required" else none
  email :=
    if jsTrim fd.email = "" then some "Email is required"
    else if !emailTest fd.email then some "Invalid email format"
    else none
  country := if fd.country = "" then some "Please select a country" else none

/-- `validateForm`'s return value: `Object.keys(newErrors).length === 0`. -/
def validateForm (fd : VoteSubmission) : Bool :=
  let e := validateFormErrors fd
  e.name.isNone && e.email.isNone && e.country.isNone

/-! ## Submission controller (`src/components/VotingForm.tsx` lines 57-79)

`handleSubmit` is an async function; its behaviour is embedded as the
ordered list of primitive effects it performs. The single `await` point
(the vote POST) is resolved by an `outcome` parameter: `none` models a
successful response, `some msg` models a rejection whose `Error` carries
message `msg` (the fetch-based `submitVote` the form uses throws a
`new Error(...)` for a non-success response, and `fetch` itself rejects
with a `TypeError` — an `Error` — on transport failure, so the
`error instanceof Error` branch of the catch applies). -/

/-- One primitive effect performed by `handleSubmit` / `validateForm`:
state setters, the network call, the parent notification, and the
`setTimeout` that clears the success banner. -/
inductive FormAction where
  | setSubmitError (msg : String)
  | setSubmitSuccess (b : Bool)
  | setIsSubmitting (b : Bool)
  | setFormData (fd : VoteSubmission)
  | setErrors (e : FormErrors)
  | apiSubmitVote (body : VoteSubmission)
  | notifyVoteSubmitted
  | scheduleClearSuccess (delayMs : Nat)
deriving DecidableEq, Repr

/-- The ordered effect trace of one `handleSubmit` run, statement by
statement: reset the banners, run `validateForm` (which stores the error
record), stop if invalid; otherwise set `isSubmitting`, POST the raw
`formData` as the body, then on success set the success flag, clear the
fields, notify the parent and schedule the 3000 ms banner clear — on
failure store the error message — and finally reset `isSubmitting`. -/
def handleSubmit (fd : VoteSubmission) (outcome : Option String) :
    List FormAction :=
  [.setSubmitError "", .setSubmitSuccess false,
   .setErrors (validateFormErrors fd)] ++
  if validateForm fd then
    [.setIsSubmitting true, .apiSubmitVote fd] ++
    (match outcome with
     | none =>
       [.setSubmitSuccess true, .setFormData ⟨"", "", ""⟩,
        .notifyVoteSubmitted, .scheduleClearSuccess 3000]
     | some msg => [.setSubmitError msg]) ++
    [.setIsSubmitting false]
  else []

/-- The component state of `VotingForm` (the fields the actions write). -/
structure FormState where
  formData : VoteSubmission
  errors : FormErrors
  isSubmitting : Bool
  submitError : String
  submitSuccess : Bool
deriving DecidableEq, Repr

/-- Interpretation of one action on the form state; the network call, the
parent notification and the timer do not directly write form state. -/
def applyAction (s : FormState) : FormAction → FormState
  | .setSubmitError m => { s with submitError := m }
  | .setSubmitSuccess b => { s with submitSuccess := b }
  | .setIsSubmitting b => { s with isSubmitting := b }
  | .setFormData fd => { s with formData := fd }
  | .setErrors e => { s with errors := e }
  | .apiSubmitVote _ => s
  | .notifyVoteSubmitted => s
  | .scheduleClearSuccess _ => s

/-- Run a trace of actions over the form state. -/
def applyActions (s : FormState) (acts : List FormAction) : FormState :=
  acts.foldl applyAction s

/-- The body of the first `apiSubmitVote` action of a trace, if any:
what the controller sends over the network. -/
def sentBody : List FormAction → Option VoteSubmission
  | [] => none
  | FormAction.apiSubmitVote fd :: _ => some fd
  | _ :: rest => sentBody rest

/-- `disabled={isSubmitting}` on the submit button
(`VotingForm.tsx` line 175). -/
def submitButtonDisabled (s : FormState) : Bool :=
  s.isSubmitting

/-- A submit action delivered through the form UI. Browser semantics: a
form whose submit control is disabled performs no submission (clicking a
disabled button dispatches nothing, and implicit submission is skipped
when the default button is disabled), so `handleSubmit` is not entered;
otherwise the `handleSubmit` trace runs to completion. -/
def submitAction (s : FormState) (outcome : Option String) :
    FormState × List FormAction :=
  if submitButtonDisabled s then (s, [])
  else (applyActions s (handleSubmit s.formData outcome),
        handleSubmit s.formData outcome)

/-- Predicate: the action writes the form fields. -/
def isSetFormData : FormAction → Bool
  | .setFormData _ => true
  | _ => false

/-- Predicate: the action is the parent vote-submitted notification. -/
def isNotify : FormAction → Bool
  | .notifyVoteSubmitted => true
  | _ => false

/-! ## Live submit failure path (`src/api/service.ts` lines 76-88)

The form imports `../api/service`, the fetch-based implementation; the
axios service and its `API.config.ts` interceptor are imported by
nothing, so the fetch `submitVote` is the failure path `handleSubmit`
actually exercises. -/

/-- The ways the live `submitVote` can fail: `httpError m` is a received
non-success response (`!response.ok`) whose parsed JSON body carries
`message` `m` (`none` when the field is absent); `transportError em` is
a rejection of `fetch` itself with an `Error` (e.g. the browser's
`TypeError`) whose text is `em`. -/
inductive FetchFailure where
  | httpError (serverMessage : Option String)
  | transportError (errMessage : String)
deriving DecidableEq, Repr

/-- The message of the `Error` that reaches `handleSubmit`'s catch:
`throw new Error(error.message || "Failed to submit vote")` for a
non-success response — the `||` falls through on a missing or empty
server message — and the transport error's own raw text otherwise; the
live path never substitutes a generic connectivity message for a
transport failure. -/
def submitVoteErrorMessage : FetchFailure → String
  | .httpError (some m) => if m = "" then "Failed to submit vote" else m
  | .httpError none => "Failed to submit vote"
  | .transportError em => em

/-! ## Ranking query controller (`src/components/CountryTable.tsx`)

`loadTopCountries` and `searchCountries` each set `isLoading`, clear the
error, issue one GET, and — when the response arrives — unconditionally
write the payload into `countries` and reset `isLoading`. The component
attaches no sequence number to a request and performs no staleness check
on completion. Outstanding requests are modelled as a list of
`(id, request)` pairs, ids handed out in issue order; a completion event
names the id it answers (each id resolves at most once). -/

/-- One outgoing ranking request: `GET /votes/top` or
`GET /votes/search?q=...` with the query passed verbatim. -/
inductive Request where
  | top
  | search (q : String)
deriving DecidableEq, Repr

/-- The `CountryTable` state touched by the two fetch functions, plus the
set of outstanding requests of the model. -/
structure QueryState where
  countries : List CountryVote
  isLoading : Bool
  error : String
  pending : List (Nat × Request)
  nextId : Nat
deriving DecidableEq, Repr

/-- The initial `CountryTable` state: `useState([])`, `useState(true)`,
`useState("")`, nothing in flight. -/
def initialQueryState : QueryState where
  countries := []
  isLoading := true
  error := ""
  pending := []
  nextId := 0

/-- The synchronous prefix shared by `loadTopCountries` and
`searchCountries` (lines 33-35 and 47-49): `setIsLoading(true)`,
`setError("")`, and one GET goes out. -/
def issueRequest (s : QueryState) (r : Request) : QueryState where
  countries := s.countries
  isLoading := true
  error := ""
  pending := s.pending ++ [(s.nextId, r)]
  nextId := s.nextId + 1

/-- Delivery of a successful response for outstanding request `id`
carrying payload `data`: `setCountries(data)` runs unconditionally — the
handler compares nothing against a latest-request marker — and the
`finally` block runs `setIsLoading(false)`. A completion for an unknown
id (already consumed) is a no-op. -/
def completeSuccess (s : QueryState) (id : Nat) (data : List CountryVote) :
    QueryState :=
  if s.pending.any (fun p => p.1 == id) then
    { countries := data
      isLoading := false
      error := s.error
      pending := s.pending.filter (fun p => p.1 != id)
      nextId := s.nextId }
  else s

/-! ## Debounced search effect (`CountryTable.tsx` lines 20-31)

The effect on `[searchQuery]` schedules a 300 ms `setTimeout` whose
callback reads the `searchQuery` of that render, and its cleanup —
run before the effect fires again for a changed value — clears the
pending timeout. A keystroke event is a change of the search text (an
edit of a text field always changes the string, which is what makes
React re-run the effect), so each keystroke cancels the previous timer
and schedules a fresh one 300 ms out. -/

/-- The debounce-relevant state: the current search text and the pending
timer, carrying its absolute fire time and the text its closure read. -/
structure DebounceState where
  text : String
  timer : Option (Nat × String)
deriving DecidableEq, Repr

/-- The timer callback (lines 21-27): search when the captured text is
nonempty after trim, otherwise load the top rankings; the search query is
passed verbatim (untrimmed). -/
def fireReq (s : String) : Request :=
  if jsTrim s = "" then Request.top else Request.search s

/-- Let time advance to `now`: a pending timer whose fire time has been
reached fires (emitting its one request) and is consumed; otherwise
nothing happens. -/
def advance (st : DebounceState) (now : Nat) : DebounceState × List Request :=
  match st.timer with
  | some (ft, s) =>
    if ft ≤ now then ({ text := st.text, timer := none }, [fireReq s])
    else (st, [])
  | none => (st, [])

/-- A keystroke at time `t` changing the text to `s`: the effect cleanup
clears the old timer and the re-run effect schedules a new one at
`t + 300` with the new text in its closure. -/
def keystroke (t : Nat) (s : String) : DebounceState where
  text := s
  timer := some (t + 300, s)

/-- Run a time-ordered list of keystrokes: before each keystroke, time
advances to its instant (firing a timer whose time has come), then the
keystroke itself resets the timer. Returns the final state and all
requests emitted along the way. -/
def runKeystrokes (st : DebounceState) :
    List (Nat × String) → DebounceState × List Request
  | [] => (st, [])
  | (t, s) :: rest =>
    let fired := advance st t
    let next := runKeystrokes (keystroke t s) rest
    (next.1, fired.2 ++ next.2)

/-- A burst of keystrokes after one at time `t0` with text `s0`: times
strictly increase, each gap is under 300 ms, and each keystroke changes
the text (so the effect re-runs each time). -/
def burst : Nat → String → List (Nat × String) → Bool
  | _, _, [] => true
  | t0, s0, (t, s) :: rest =>
    decide (t0 < t) && decide (t < t0 + 300) && s != s0 && burst t s rest

/-- The last keystroke of a burst, given the head keystroke as default. -/
def lastKey (d : Nat × String) (ks : List (Nat × String)) : Nat × String :=
  ks.getLastD d

/-! ## Mount behaviour and the refresh trigger

On mount the effect on `[refreshTrigger]` (lines 16-18) runs
`loadTopCountries()` immediately, and the effect on `[searchQuery]` runs
with the initial empty text, scheduling the 300 ms timer exactly like a
keystroke at time 0 with text `""`. -/

/-- The debounce state right after mount (mount at time 0). -/
def mountDebounce : DebounceState :=
  keystroke 0 ""

/-- All ranking requests issued by a freshly mounted `CountryTable` that
receives no keystroke, observed at time `u`: the immediate
`loadTopCountries` of the refresh effect, followed by whatever the
debounce timer emits once its fire time is reached. -/
def mountRequests (u : Nat) : List Request :=
  [Request.top] ++ (advance mountDebounce u).2

/-! ## App composition (`src/App.tsx` lines 5-22)

`App` owns `refreshTrigger`; `handleVoteSubmitted` (the `onVoteSubmitted`
prop of `VotingForm`) increments it, and `CountryTable`'s effect on
`[refreshTrigger]` re-runs — the value changed, `n + 1 ≠ n` — calling
`loadTopCountries()` once. The effect on `[searchQuery]` does not re-run,
since the search text did not change. -/

/-- The composed application state. -/
structure AppState where
  form : FormState
  refreshTrigger : Nat
  table : QueryState
  deb : DebounceState
deriving Repr

/-- What one `onVoteSubmitted` call causes: `setRefreshTrigger(prev =>
prev + 1)` in `App`, and the re-run refresh effect issues exactly one
top-rankings GET (`loadTopCountries` performs one `api.getTopCountries()`
call); the debounce state is untouched. -/
def notifyEffects (a : AppState) : AppState × List Request :=
  ({ form := a.form
     refreshTrigger := a.refreshTrigger + 1
     table := issueRequest a.table Request.top
     deb := a.deb }, [Request.top])

/-- Interpretation of one form action at the application level: the
notification fans out to `App` and `CountryTable`; every other action
only writes `VotingForm` state (the vote POST itself is kept in the form
trace and is not a ranking request). -/
def applyFormAction (a : AppState) :
    FormAction → AppState × List Request
  | .notifyVoteSubmitted => notifyEffects a
  | act => ({ a with form := applyAction a.form act }, [])

/-- Run one whole submit against the application: interpret the
`handleSubmit` trace, collecting the ranking requests it provokes. -/
def runSubmit (a : AppState) (outcome : Option String) :
    AppState × List Request :=
  (handleSubmit a.form.formData outcome).foldl
    (fun acc act =>
      let r := applyFormAction acc.1 act
      (r.1, acc.2 ++ r.2))
    (a, [])

/-! ## The two API service implementations, success paths

The repository contains a fetch-based `api` object
(`src/api/service.ts`) and an axios-based one (the variant importing
`API` from `API.config`). On a success response the fetch one parses the
body `ApiResponse` and returns its `data` field; the axios one receives
the parsed body as `response.data` and returns `response.data.data`.
`submitVote` returns no value in either. Each definition below takes the
successful response body as input, standing for the resolved network
call. -/

/-- An axios success value: `response.data` is the parsed body. -/
structure AxiosResponse (α : Type) where
  data : α
deriving DecidableEq, Repr

namespace fetchApi

/-- `service.ts` `getCountries`, success path: `return data.data`. -/
def getCountries (body : ApiResponse (List Country)) : List Country :=
  body.data

/-- `service.ts` `getTopCountries`, success path. -/
def getTopCountries (body : ApiResponse (List CountryVote)) :
    List CountryVote :=
  body.data

/-- `service.ts` `searchCountries`, success path; the query only shapes
the URL, not the success result. -/
def searchCountries (_query : String) (body : ApiResponse (List CountryVote)) :
    List CountryVote :=
  body.data

/-- `service.ts` `submitVote`: returns nothing on success. -/
def submitVote (_vote : VoteSubmission) : Unit := ()

end fetchApi

namespace axiosApi

/-- Axios `getCountries`: `response.data.data`. -/
def getCountries (resp : AxiosResponse (ApiResponse (List Country))) :
    List Country :=
  resp.data.data

/-- Axios `getTopCountries`: `response.data.data`. -/
def getTopCountries (resp : AxiosResponse (ApiResponse (List CountryVote))) :
    List CountryVote :=
  resp.data.data

/-- Axios `searchCountries`: `response.data.data`. -/
def searchCountries (_query : String)
    (resp : AxiosResponse (ApiResponse (List CountryVote))) :
    List CountryVote :=
  resp.data.data

/-- Axios `submitVote`: the response is awaited and discarded. -/
def submitVote (_vote : VoteSubmission) (_resp : AxiosResponse Unit) :
    Unit := ()

end axiosApi

/-- A sample ranking entry used as a concrete response payload. -/
def franceEntry : CountryVote :=
  ⟨"France", "Paris", "Europe", "Western Europe", 5, 1⟩

/-! ## Helper lemmas -/

/-- The explicit effect trace of a validated, successful submit. -/
theorem handleSubmit_success_eq (fd : VoteSubmission)
    (hv : validateForm fd = true) :
    handleSubmit fd none =
      [.setSubmitError "", .setSubmitSuccess false,
       .setErrors (validateFormErrors fd), .setIsSubmitting true,
       .apiSubmitVote fd, .setSubmitSuccess true,
       .setFormData ⟨"", "", ""⟩, .notifyVoteSubmitted,
       .scheduleClearSuccess 3000, .setIsSubmitting false] := by
  simp [handleSubmit, hv]

/-- The explicit effect trace of a validated submit whose request is
rejected with message `msg`. -/
theorem handleSubmit_failure_eq (fd : VoteSubmission) (msg : String)
    (hv : validateForm fd = true) :
    handleSubmit fd (some msg) =
      [.setSubmitError "", .setSubmitSuccess false,
       .setErrors (validateFormErrors fd), .setIsSubmitting true,
       .apiSubmitVote fd, .setSubmitError msg, .setIsSubmitting false] := by
  simp [handleSubmit, hv]

/-- Through a burst of keystrokes (each under 300 ms after the previous
one, each changing the text) no timer ever fires: no request goes out and
the final state carries the last keystroke's timer and text. -/
theorem runKeystrokes_burst_eq (ks : List (Nat × String)) :
    ∀ (t0 : Nat) (s0 : String), burst t0 s0 ks = true →
      runKeystrokes (keystroke t0 s0) ks =
        ({ text := (lastKey (t0, s0) ks).2,
           timer := some ((lastKey (t0, s0) ks).1 + 300,
             (lastKey (t0, s0) ks).2) }, []) := by
  induction ks with
  | nil => intro t0 s0 _; rfl
  | cons hd tl ih =>
    obtain ⟨t, s⟩ := hd
    intro t0 s0 hb
    simp only [burst, Bool.and_eq_true, decide_eq_true_eq, bne_iff_ne] at hb
    obtain ⟨⟨⟨h1, h2⟩, h3⟩, h4⟩ := hb
    have hlt : ¬ (t0 + 300 ≤ t) := by omega
    have ih2 := ih t s h4
    simp only [keystroke, lastKey] at ih2
    simp only [runKeystrokes, advance, keystroke, hlt, if_false,
      lastKey, List.getLastD_cons, List.nil_append, ih2, Prod.mk.eta]

/-! ## Claim theorems -/

/-- C1, counterexample. R1 (`/votes/top`, id 0) is issued, then R2
(`/votes/search?q=fr`, id 1) is issued before R1 resolves; R2's response
(empty result) arrives first and R1's arrives after. The committed
entries are R1's payload, not R2's: the code has no sequence numbers and
discards nothing, so the claimed staleness guarantee fails. -/
theorem stale_response_overwrites_cex :
    (completeSuccess
        (completeSuccess
          (issueRequest (issueRequest initialQueryState Request.top)
            (Request.search "fr"))
          1 [])
        0 [franceEntry]).countries
      = [franceEntry]
    ∧ [franceEntry] ≠ ([] : List CountryVote) := by
  refine ⟨?_, ?_⟩ <;> decide

/-- C1 (corrected): the ranking query controller performs no staleness
discard — the response of any still-outstanding request, stale or not,
unconditionally overwrites `entries` (and resets `isLoading`) when it is
processed, so the committed entries reflect whichever response arrived
last, not the most recently issued request. -/
theorem completion_always_commits (s : QueryState) (id : Nat)
    (data : List CountryVote)
    (h : s.pending.any (fun p => p.1 == id) = true) :
    (completeSuccess s id data).countries = data
    ∧ (completeSuccess s id data).isLoading = false := by
  simp [completeSuccess, h]

/-- C1, witness: a concrete outstanding request's response commits. -/
theorem completion_always_commits_witness :
    (completeSuccess (issueRequest initialQueryState Request.top)
        0 [franceEntry]).countries = [franceEntry]
    ∧ (completeSuccess (issueRequest initialQueryState Request.top)
        0 [franceEntry]).isLoading = false :=
  completion_always_commits _ 0 [franceEntry] (by decide)

/-- C2, counterexample. The submission `{name: "A", email: "a@b.co",
country: "FRA"}` has trimmed name length 1, yet the validator used on
submit produces no `name` error at all (and accepts the submission): the
claimed `tooShort` rule does not exist in `validateForm`. -/
theorem short_name_passes_validation_cex :
    (jsTrim "A").length = 1
    ∧ (validateFormErrors ⟨"A", "a@b.co", "FRA"⟩).name = none
    ∧ validateForm ⟨"A", "a@b.co", "FRA"⟩ = true := by
  refine ⟨?_, ?_, ?_⟩ <;> decide

/-- C2 (corrected): the validator used on submit checks only that the
name is nonempty after trimming. A trim-empty name yields exactly the one
error `"Name is required"` keyed `name`; any name with nonempty trim — in
particular of trimmed length 1 or greater than 100 — yields no `name`
error. (The zod schema with the 2/100 length bounds exists in the repo
but is never invoked by the form.) -/
theorem name_validation_required_only (fd : VoteSubmission) :
    (jsTrim fd.name = "" →
      (validateFormErrors fd).name = some "Name is required")
    ∧ (jsTrim fd.name ≠ "" → (validateFormErrors fd).name = none) := by
  constructor <;> intro h <;> simp [validateFormErrors, h]

/-- C2, witness: the length-1 name "A" produces no name error. -/
theorem name_validation_required_only_witness :
    (validateFormErrors ⟨"A", "a@b.co", "FRA"⟩).name = none :=
  (name_validation_required_only ⟨"A", "a@b.co", "FRA"⟩).2 (by decide)

/-- C3 (confirmed): for any burst of keystrokes each arriving within
300 ms of the previous one (starting from a quiescent debounce state), no
request is issued before the quiet period elapses (`v` strictly before
the last keystroke plus 300 ms sees nothing fire), exactly one ranking
request is issued in total once 300 ms have passed since the last
keystroke (`u`), the retained text is the last keystroke's, and the
request is a top-rankings fetch when that text is blank after trimming
and otherwise a search with the text passed verbatim. -/
theorem debounce_single_request (st0 : DebounceState) (h0 : st0.timer = none)
    (t0 : Nat) (s0 : String) (ks : List (Nat × String))
    (hb : burst t0 s0 ks = true) (u v : Nat)
    (hu : (lastKey (t0, s0) ks).1 + 300 ≤ u)
    (hv : v < (lastKey (t0, s0) ks).1 + 300) :
    (advance (runKeystrokes st0 ((t0, s0) :: ks)).1 v).2 = []
    ∧ (runKeystrokes st0 ((t0, s0) :: ks)).2
        ++ (advance (runKeystrokes st0 ((t0, s0) :: ks)).1 u).2
      = [fireReq (lastKey (t0, s0) ks).2]
    ∧ (runKeystrokes st0 ((t0, s0) :: ks)).1.text = (lastKey (t0, s0) ks).2
    ∧ fireReq (lastKey (t0, s0) ks).2
      = (if jsTrim (lastKey (t0, s0) ks).2 = "" then Request.top
         else Request.search (lastKey (t0, s0) ks).2) := by
  have hrun : runKeystrokes st0 ((t0, s0) :: ks) =
      ({ text := (lastKey (t0, s0) ks).2,
         timer := some ((lastKey (t0, s0) ks).1 + 300,
           (lastKey (t0, s0) ks).2) }, []) := by
    simp only [runKeystrokes, advance, h0, runKeystrokes_burst_eq ks t0 s0 hb,
      List.nil_append, Prod.mk.eta]
  have hnv : ¬ ((lastKey (t0, s0) ks).1 + 300 ≤ v) := by omega
  refine ⟨?_, ?_, ?_, rfl⟩
  · simp [hrun, advance, hnv]
  · simp [hrun, advance, hu]
  · simp [hrun]

/-- C3, witness: keystrokes "f" at 0 ms and "fr" at 100 ms, observed at
350 ms (still quiet) and 400 ms (fired): one search request for "fr". -/
theorem debounce_single_request_witness :
    (advance (runKeystrokes ⟨"", none⟩ [(0, "f"), (100, "fr")]).1 350).2 = []
    ∧ (runKeystrokes ⟨"", none⟩ [(0, "f"), (100, "fr")]).2
        ++ (advance (runKeystrokes ⟨"", none⟩ [(0, "f"), (100, "fr")]).1 400).2
      = [fireReq (lastKey (0, "f") [(100, "fr")]).2]
    ∧ (runKeystrokes ⟨"", none⟩ [(0, "f"), (100, "fr")]).1.text
      = (lastKey (0, "f") [(100, "fr")]).2
    ∧ fireReq (lastKey (0, "f") [(100, "fr")]).2
      = (if jsTrim (lastKey (0, "f") [(100, "fr")]).2 = "" then Request.top
         else Request.search (lastKey (0, "f") [(100, "fr")]).2) :=
  debounce_single_request ⟨"", none⟩ rfl 0 "f" [(100, "fr")]
    (by decide) 400 350 (by decide) (by decide)

/-- C4 (confirmed): a validated, successful vote submission provokes
exactly one top-rankings fetch (whatever the current search text — the
debounce state, including any non-blank text, is untouched), increments
the refresh signal by exactly 1, and clears the form fields. -/
theorem submit_success_triggers_one_top_fetch (a : AppState)
    (hv : validateForm a.form.formData = true) :
    (runSubmit a none).2 = [Request.top]
    ∧ (runSubmit a none).1.refreshTrigger = a.refreshTrigger + 1
    ∧ (runSubmit a none).1.form.formData = ⟨"", "", ""⟩
    ∧ (runSubmit a none).1.deb = a.deb := by
  have ht := handleSubmit_success_eq a.form.formData hv
  simp [runSubmit, ht, applyFormAction, notifyEffects, applyAction]

/-- C4, witness: a concrete app state with an active non-blank search
("fra") and refresh signal 5. -/
theorem submit_success_triggers_one_top_fetch_witness :
    (runSubmit
        ⟨⟨⟨"Bob", "a@b.co", "FRA"⟩, ⟨none, none, none⟩, false, "", false⟩,
         5, initialQueryState, ⟨"fra", none⟩⟩ none).2 = [Request.top]
    ∧ (runSubmit
        ⟨⟨⟨"Bob", "a@b.co", "FRA"⟩, ⟨none, none, none⟩, false, "", false⟩,
         5, initialQueryState, ⟨"fra", none⟩⟩ none).1.refreshTrigger = 5 + 1
    ∧ (runSubmit
        ⟨⟨⟨"Bob", "a@b.co", "FRA"⟩, ⟨none, none, none⟩, false, "", false⟩,
         5, initialQueryState, ⟨"fra", none⟩⟩ none).1.form.formData
      = ⟨"", "", ""⟩
    ∧ (runSubmit
        ⟨⟨⟨"Bob", "a@b.co", "FRA"⟩, ⟨none, none, none⟩, false, "", false⟩,
         5, initialQueryState, ⟨"fra", none⟩⟩ none).1.deb = ⟨"fra", none⟩ :=
  submit_success_triggers_one_top_fetch _ (by decide)

/-- C5, counterexample. In the success trace of a concrete valid submit,
the success indicator is set (index of `setSubmitSuccess true`) strictly
before the form fields are cleared and strictly before the notification
is invoked — the claimed order "clear, then notify, then expose the
success indicator" does not hold in the code, which runs
`setSubmitSuccess(true)` first. -/
theorem success_flag_set_before_clear_and_notify_cex :
    (handleSubmit ⟨"Bob", "a@b.co", "FRA"⟩ none).findIdx
        (fun a => decide (a = FormAction.setSubmitSuccess true)) <
      (handleSubmit ⟨"Bob", "a@b.co", "FRA"⟩ none).findIdx
        (fun a => isSetFormData a)
    ∧ (handleSubmit ⟨"Bob", "a@b.co", "FRA"⟩ none).findIdx
        (fun a => decide (a = FormAction.setSubmitSuccess true)) <
      (handleSubmit ⟨"Bob", "a@b.co", "FRA"⟩ none).findIdx
        (fun a => isNotify a) := by
  refine ⟨?_, ?_⟩ <;> decide

/-- C5 (corrected): on a validated, successful submit the controller
performs, in order: set the success indicator, clear the form fields to
empty, invoke the external vote-submitted notification exactly once, and
schedule the indicator's auto-clear after 3000 ms (the auto-clear timer
only; the indicator itself is exposed before the fields are cleared and
before the notification), finally resetting `isSubmitting`. -/
theorem submit_success_action_order (fd : VoteSubmission)
    (hv : validateForm fd = true) :
    handleSubmit fd none =
      [.setSubmitError "", .setSubmitSuccess false,
       .setErrors (validateFormErrors fd), .setIsSubmitting true,
       .apiSubmitVote fd, .setSubmitSuccess true,
       .setFormData ⟨"", "", ""⟩, .notifyVoteSubmitted,
       .scheduleClearSuccess 3000, .setIsSubmitting false]
    ∧ (handleSubmit fd none).countP (fun a => isNotify a) = 1 := by
  have ht := handleSubmit_success_eq fd hv
  exact ⟨ht, by rw [ht]; rfl⟩

/-- C5, witness: the trace of a concrete valid submit. -/
theorem submit_success_action_order_witness :
    handleSubmit ⟨"Bob", "a@b.co", "FRA"⟩ none =
      [.setSubmitError "", .setSubmitSuccess false,
       .setErrors (validateFormErrors ⟨"Bob", "a@b.co", "FRA"⟩),
       .setIsSubmitting true, .apiSubmitVote ⟨"Bob", "a@b.co", "FRA"⟩,
       .setSubmitSuccess true, .setFormData ⟨"", "", ""⟩,
       .notifyVoteSubmitted, .scheduleClearSuccess 3000,
       .setIsSubmitting false]
    ∧ (handleSubmit ⟨"Bob", "a@b.co", "FRA"⟩ none).countP
        (fun a => isNotify a) = 1 :=
  submit_success_action_order ⟨"Bob", "a@b.co", "FRA"⟩ (by decide)

/-- C6, counterexample. On the live submit path a transport failure with
the browser's text "Failed to fetch" surfaces exactly that raw text —
not the repository's only generic transport-failure string (the
"Unable to connect to the server. Please try again later." of the axios
interceptor, which nothing imports) — and a received non-success
response without a server message surfaces the fixed
"Failed to submit vote", not raw error text: the claimed
message-selection rule fails on the code the form actually runs. -/
theorem transport_failure_not_generic_cex :
    (applyActions
        ⟨⟨"Bob", "a@b.co", "FRA"⟩, ⟨none, none, none⟩, false, "", false⟩
        (handleSubmit ⟨"Bob", "a@b.co", "FRA"⟩
          (some (submitVoteErrorMessage
            (FetchFailure.transportError "Failed to fetch"))))).submitError
      = "Failed to fetch"
    ∧ "Failed to fetch"
      ≠ "Unable to connect to the server. Please try again later."
    ∧ submitVoteErrorMessage (FetchFailure.httpError none)
      = "Failed to submit vote" := by
  refine ⟨?_, ?_, ?_⟩ <;> decide

/-- C6 (corrected): when a validated submit's request fails on the live
path (the fetch-based `submitVote` the form imports), the form fields
end unchanged (the trace contains no `setFormData` at all) and exactly
one message is exposed: the server-provided one when the non-success
response carries a nonempty `message`, the fixed fallback
"Failed to submit vote" when it does not, and the thrown error's raw
text for a transport failure — no generic transport-failure message is
ever substituted. -/
theorem submit_failure_preserves_fields (s0 : FormState)
    (fd : VoteSubmission) (f : FetchFailure)
    (hv : validateForm fd = true) :
    (applyActions s0
        (handleSubmit fd (some (submitVoteErrorMessage f)))).formData
      = s0.formData
    ∧ (applyActions s0
        (handleSubmit fd (some (submitVoteErrorMessage f)))).submitError
      = submitVoteErrorMessage f
    ∧ (handleSubmit fd (some (submitVoteErrorMessage f))).countP
        (fun a => isSetFormData a) = 0
    ∧ (∀ m, m ≠ "" →
        submitVoteErrorMessage (FetchFailure.httpError (some m)) = m)
    ∧ submitVoteErrorMessage (FetchFailure.httpError none)
      = "Failed to submit vote"
    ∧ (∀ em, submitVoteErrorMessage (FetchFailure.transportError em) = em) := by
  rw [handleSubmit_failure_eq fd _ hv]
  refine ⟨?_, ?_, ?_, ?_, ?_, ?_⟩
  · simp [applyActions, applyAction]
  · simp [applyActions, applyAction]
  · rfl
  · intro m hm; simp [submitVoteErrorMessage, hm]
  · rfl
  · intro em; rfl

/-- C6, witness: a concrete valid submit rejected with a server message
leaves the concrete form fields intact and exposes that message. -/
theorem submit_failure_preserves_fields_witness :
    (applyActions
        ⟨⟨"Bob", "a@b.co", "FRA"⟩, ⟨none, none, none⟩, false, "", false⟩
        (handleSubmit ⟨"Bob", "a@b.co", "FRA"⟩
          (some (submitVoteErrorMessage
            (FetchFailure.httpError (some "Country is required")))))).formData
      = ⟨"Bob", "a@b.co", "FRA"⟩
    ∧ (applyActions
        ⟨⟨"Bob", "a@b.co", "FRA"⟩, ⟨none, none, none⟩, false, "", false⟩
        (handleSubmit ⟨"Bob", "a@b.co", "FRA"⟩
          (some (submitVoteErrorMessage
            (FetchFailure.httpError (some "Country is required")))))).submitError
      = submitVoteErrorMessage (FetchFailure.httpError (some "Country is required")) :=
  ⟨(submit_failure_preserves_fields _ _ _ (by decide)).1,
   (submit_failure_preserves_fields _ _ _ (by decide)).2.1⟩

/-- C7 (confirmed): a submit action arriving while `isSubmitting` is true
is ignored — the submit control is disabled, so no effect runs: the state
is unchanged and no action (in particular no network request) occurs. -/
theorem submit_ignored_while_submitting (s : FormState)
    (outcome : Option String) (h : s.isSubmitting = true) :
    submitAction s outcome = (s, []) := by
  simp [submitAction, submitButtonDisabled, h]

/-- C7, witness: a concrete mid-flight state ignores a submit action. -/
theorem submit_ignored_while_submitting_witness :
    submitAction
        ⟨⟨"Bob", "a@b.co", "FRA"⟩, ⟨none, none, none⟩, true, "", false⟩ none
      = (⟨⟨"Bob", "a@b.co", "FRA"⟩, ⟨none, none, none⟩, true, "", false⟩, []) :=
  submit_ignored_while_submitting _ none rfl

/-- C8, counterexample. The submission `{name: " Bob ", email: "A@B.CO",
country: "FRA"}` passes validation, and the body sent is that raw
submission itself: the name is not trimmed (trimming would give "Bob")
and the email is not lowercased or trimmed (normalizing would give
"a@b.co") — no normalized submission exists in the code. -/
theorem raw_body_sent_unnormalized_cex :
    validateForm ⟨" Bob ", "A@B.CO", "FRA"⟩ = true
    ∧ sentBody (handleSubmit ⟨" Bob ", "A@B.CO", "FRA"⟩ none)
      = some ⟨" Bob ", "A@B.CO", "FRA"⟩
    ∧ jsTrim " Bob " = "Bob" ∧ " Bob " ≠ "Bob"
    ∧ jsToLowerAscii (jsTrim "A@B.CO") = "a@b.co" ∧ "A@B.CO" ≠ "a@b.co" := by
  refine ⟨?_, ?_, ?_, ?_, ?_, ?_⟩ <;> decide

/-- C8 (corrected): every submission that passes `validateForm` is sent
as the request body verbatim — the raw `formData`, with no trimming of
the name and no lowercasing or trimming of the email; validation only
gates, it never normalizes. -/
theorem sent_body_is_raw_form_data (fd : VoteSubmission)
    (hv : validateForm fd = true) :
    sentBody (handleSubmit fd none) = some fd := by
  rw [handleSubmit_success_eq fd hv]; rfl

/-- C8, witness: the raw, unnormalized submission is what goes out. -/
theorem sent_body_is_raw_form_data_witness :
    sentBody (handleSubmit ⟨" Bob ", "A@B.CO", "FRA"⟩ none)
      = some ⟨" Bob ", "A@B.CO", "FRA"⟩ :=
  sent_body_is_raw_form_data ⟨" Bob ", "A@B.CO", "FRA"⟩ (by decide)

/-- C9 (confirmed): a freshly mounted `CountryTable` with blank search
text issues exactly two top-rankings fetches — one immediately from the
refresh-signal effect and a second when the 300 ms debounce timer fires
for the initial blank text. -/
theorem mount_issues_two_top_fetches (u : Nat) (hu : 300 ≤ u) :
    mountRequests u = [Request.top, Request.top] := by
  have h : (0 : Nat) + 300 ≤ u := by omega
  simp only [mountRequests, mountDebounce, keystroke, advance, h, if_true]
  decide

/-- C9, witness: observed at 300 ms, both fetches have been issued. -/
theorem mount_issues_two_top_fetches_witness :
    mountRequests 300 = [Request.top, Request.top] :=
  mount_issues_two_top_fetches 300 (by decide)

/-- C10 (confirmed): on success responses the fetch-based and the
axios-based API services are extensionally equivalent — for every
endpoint both return the response body's `data` field unchanged, and
`submitVote` returns no value in either. -/
theorem services_equivalent_on_success
    (cs : ApiResponse (List Country)) (tv : ApiResponse (List CountryVote))
    (sv : ApiResponse (List CountryVote)) (q : String) (v : VoteSubmission)
    (r : AxiosResponse Unit) :
    fetchApi.getCountries cs = axiosApi.getCountries ⟨cs⟩
    ∧ fetchApi.getTopCountries tv = axiosApi.getTopCountries ⟨tv⟩
    ∧ fetchApi.searchCountries q sv = axiosApi.searchCountries q ⟨sv⟩
    ∧ fetchApi.submitVote v = axiosApi.submitVote v r :=
  ⟨rfl, rfl, rfl, rfl⟩
